import Mathlib

/-!
Verification of the datatalk repository's configuration, provider-detection
and LLM-response post-processing logic, shallowly embedded from the Python
sources (`datatalk/config.py`, `datatalk/llm/factory.py`, `datatalk/llm/base.py`,
`datatalk/query.py`, `geodatatalk/geollm.py`, `geodatatalk/geoquery.py`).

Python strings are modelled as `List Char`; `os.environ` and the loaded
configuration mapping as association lists; interactive prompts and external
calls (LLM transport, `json.loads`) as explicit parameters.
-/

namespace DataTalk

/-- The whitespace set stripped by Python `str.strip()` (ASCII range). -/
def pyIsSpace (c : Char) : Bool :=
  c = ' ' || c = '\t' || c = '\n' || c = '\r' || c = '\x0b' || c = '\x0c'

/-- Python `str.lstrip()`. -/
def lstrip (s : List Char) : List Char := s.dropWhile pyIsSpace

/-- Python `str.rstrip()`. -/
def rstrip (s : List Char) : List Char := (s.reverse.dropWhile pyIsSpace).reverse

/-- Python `str.strip()`. -/
def strip (s : List Char) : List Char := rstrip (lstrip s)

/-- Python `str.startswith(pre)`. -/
def startswith (pre s : List Char) : Bool := pre.isPrefixOf s

/-- Python `str.endswith(suf)`. -/
def endswith (suf s : List Char) : Bool := suf.isSuffixOf s

/-- `BaseLLMProvider._clean_sql`, leading-fence removal step
(`datatalk/llm/base.py` lines 24-27): drop a leading ````` ```sql ````` (6 chars)
or a bare ````` ``` ````` (3 chars). -/
def removeLeadingFence (s : List Char) : List Char :=
  if startswith ("```sql".toList) s then s.drop 6
  else if startswith ("```".toList) s then s.drop 3
  else s

/-- `BaseLLMProvider._clean_sql`, trailing-fence removal step
(`datatalk/llm/base.py` lines 29-30): Python `sql[:-3]` when it ends with ````` ``` `````. -/
def removeTrailingFence (s : List Char) : List Char :=
  if endswith ("```".toList) s then s.take (s.length - 3) else s

/-- `BaseLLMProvider._clean_sql` (`datatalk/llm/base.py` lines 19-32):
strip, remove markdown code-block fences, strip again. -/
def clean_sql (sql : List Char) : List Char :=
  strip (removeTrailingFence (removeLeadingFence (strip sql)))

/-- Index of the first occurrence of `sep` as a contiguous substring of `s`
(used to model Python's `in`, `str.split` and `str.find`). -/
def findSub? (sep : List Char) : List Char → Option Nat
  | [] => if sep.isEmpty then some 0 else none
  | c :: rest =>
    if sep.isPrefixOf (c :: rest) then some 0
    else (findSub? sep rest).map (· + 1)

/-- Python `sep in s` (substring containment). -/
def containsSub (sep s : List Char) : Bool := (findSub? sep s).isSome

/-- Python `s.split(sep)[0]`: the part of `s` before the first occurrence of
`sep`, or all of `s` when `sep` does not occur. -/
def beforeFirst (sep s : List Char) : List Char :=
  match findSub? sep s with
  | some i => s.take i
  | none => s

/-- The part of `s` after the first occurrence of `sep` (empty when `sep` does
not occur); `s.split(sep)[1]` is `beforeFirst sep (afterFirst sep s)`. -/
def afterFirst (sep s : List Char) : List Char :=
  match findSub? sep s with
  | some i => s.drop (i + sep.length)
  | none => []

/-- `config.parse_target_url` (`datatalk/config.py` lines 119-140): decompose an
Azure deployment target URL into (endpoint, deployment name, api version),
raising `ValueError` (modelled as `.error`) when the URL lacks the
`/openai/deployments/` segment or the `api-version=` query parameter. -/
def parse_target_url (target_url : List Char) :
    Except (List Char) (List Char × List Char × List Char) :=
  if ¬ containsSub ("/openai/deployments/".toList) target_url then
    .error ("Invalid Azure deployment target URL format".toList)
  else
    let endpoint :=
      beforeFirst ("/openai/deployments/".toList) target_url ++ "/".toList
    let deployment_part :=
      beforeFirst ("/openai/deployments/".toList)
        (afterFirst ("/openai/deployments/".toList) target_url)
    let deployment_name := beforeFirst ("/".toList) deployment_part
    if ¬ containsSub ("api-version=".toList) target_url then
      .error ("API version not found in target URL".toList)
    else
      let api_version :=
        beforeFirst ("&".toList)
          (beforeFirst ("api-version=".toList)
            (afterFirst ("api-version=".toList) target_url))
      .ok (endpoint, deployment_name, api_version)

/-- Whether an `Except` result is a success. -/
def exceptOk {ε α : Type} : Except ε α → Bool
  | .ok _ => true
  | .error _ => false

/-- Truthiness of an optional looked-up string, as Python `bool(x)` sees it
(`None` and `""` are falsy). -/
def truthy (v : Option String) : Bool := v.getD "" ≠ ""

/-- Process environment / loaded configuration, modelled as association lists;
`os.getenv` / `dict.get` is `List.lookup`. -/
abbrev StrMap := List (String × String)

/-- Outcome of one `get_env_var` call: a value together with the (possibly
updated) in-memory configuration mapping and whether the user was prompted,
or a `sys.exit` with the given status code. -/
inductive EnvVarOutcome where
  | value (v : String) (config : StrMap) (prompted : Bool)
  | exitCode (code : Nat)
  deriving DecidableEq, Repr

/-- The `descriptions` table inside `get_env_var` (`datatalk/config.py`
lines 48-59): the recognized configuration variable names. -/
def descriptions : StrMap :=
  [("AZURE_OPENAI_API_KEY", "Azure OpenAI API key"),
   ("AZURE_DEPLOYMENT_TARGET_URL", "Azure OpenAI deployment target URL"),
   ("OPENAI_API_KEY", "OpenAI API key"),
   ("OPENAI_MODEL", "OpenAI model name"),
   ("ANTHROPIC_API_KEY", "Anthropic API key"),
   ("ANTHROPIC_MODEL", "Anthropic model name"),
   ("OLLAMA_BASE_URL", "Ollama server endpoint"),
   ("OLLAMA_MODEL", "Ollama model name"),
   ("GEMINI_API_KEY", "Google AI Studio API key"),
   ("GEMINI_MODEL", "Gemini model name")]

/-- `config.get_env_var` (`datatalk/config.py` lines 36-116).
`env` models `os.environ`, `config` the loaded mapping, and `ans` the string the
interactive `Prompt.ask` would return (after its own default handling); console
messages and the `save_config` disk write carry no data and are omitted.
The branch chain mirrors the source: any name containing `API_KEY`, then the
six specially-prompted names, then the unknown-name `sys.exit(1)`; an empty
prompt answer is the `if not value: sys.exit(1)` path; a successful prompt
stores the answer into the mapping and reports `prompted = true`. -/
def get_env_var (name : String) (env config : StrMap) (ans : String) :
    EnvVarOutcome :=
  -- First check environment variables (empty value is falsy)
  if ((env.lookup name).getD "") ≠ "" then
    .value ((env.lookup name).getD "") config false
  else
    -- Then check saved config (`name in config` is membership, not truthiness)
    match config.lookup name with
    | some v => .value v config false
    | none =>
      -- Prompt user for the value
      let promptResult : EnvVarOutcome :=
        if ans = "" then .exitCode 1
        else .value ans ((name, ans) :: config) true
      if containsSub ("API_KEY".toList) name.toList then promptResult
      else if name = "AZURE_DEPLOYMENT_TARGET_URL" then promptResult
      else if name = "OPENAI_MODEL" then promptResult
      else if name = "ANTHROPIC_MODEL" then promptResult
      else if name = "OLLAMA_BASE_URL" then promptResult
      else if name = "OLLAMA_MODEL" then promptResult
      else if name = "GEMINI_MODEL" then promptResult
      else .exitCode 1

/-- The five LLM providers of `datatalk/llm/factory.py`. -/
inductive Provider where
  | ollama | anthropic | gemini | openai | azure
  deriving DecidableEq, Repr

/-- The string id `detect_llm_provider` returns for each provider. -/
def Provider.idStr : Provider → String
  | .ollama => "ollama"
  | .anthropic => "anthropic"
  | .gemini => "gemini"
  | .openai => "openai"
  | .azure => "azure"

/-- `has_ollama_env` (`factory.py` line 29). -/
def has_ollama_env (env : StrMap) : Bool :=
  truthy (env.lookup "OLLAMA_BASE_URL") || truthy (env.lookup "OLLAMA_MODEL")

/-- `has_anthropic_env` (`factory.py` line 30). -/
def has_anthropic_env (env : StrMap) : Bool :=
  truthy (env.lookup "ANTHROPIC_API_KEY")

/-- `has_gemini_env` (`factory.py` line 31). -/
def has_gemini_env (env : StrMap) : Bool :=
  truthy (env.lookup "GEMINI_API_KEY")

/-- `has_azure_env` (`factory.py` lines 32-34). -/
def has_azure_env (env : StrMap) : Bool :=
  truthy (env.lookup "AZURE_OPENAI_API_KEY") ||
    truthy (env.lookup "AZURE_DEPLOYMENT_TARGET_URL")

/-- `has_openai_env` (`factory.py` line 35). -/
def has_openai_env (env : StrMap) : Bool :=
  truthy (env.lookup "OPENAI_API_KEY")

/-- `has_ollama_config` (`factory.py` lines 38-40). -/
def has_ollama_config (config : StrMap) : Bool :=
  truthy (config.lookup "OLLAMA_BASE_URL") || truthy (config.lookup "OLLAMA_MODEL")

/-- `has_anthropic_config` (`factory.py` lines 41-43). -/
def has_anthropic_config (config : StrMap) : Bool :=
  truthy (config.lookup "ANTHROPIC_API_KEY") ||
    truthy (config.lookup "ANTHROPIC_MODEL")

/-- `has_gemini_config` (`factory.py` lines 44-46). -/
def has_gemini_config (config : StrMap) : Bool :=
  truthy (config.lookup "GEMINI_API_KEY") || truthy (config.lookup "GEMINI_MODEL")

/-- `has_azure_config` (`factory.py` lines 47-49). -/
def has_azure_config (config : StrMap) : Bool :=
  truthy (config.lookup "AZURE_OPENAI_API_KEY") ||
    truthy (config.lookup "AZURE_DEPLOYMENT_TARGET_URL")

/-- `has_openai_config` (`factory.py` line 50). -/
def has_openai_config (config : StrMap) : Bool :=
  truthy (config.lookup "OPENAI_API_KEY") || truthy (config.lookup "OPENAI_MODEL")

/-- `factory.detect_llm_provider` (`datatalk/llm/factory.py` lines 26-112):
priority chain Ollama > Anthropic > Gemini > OpenAI > Azure; `none` is the
fall-through to the interactive provider menu (lines 83-112), which is the
only path that requires user input. -/
def detect_llm_provider (env config : StrMap) : Option String :=
  if has_ollama_env env || has_ollama_config config then some "ollama"
  else if has_anthropic_env env || has_anthropic_config config then some "anthropic"
  else if has_gemini_env env || has_gemini_config config then some "gemini"
  else if has_openai_env env || has_openai_config config then some "openai"
  else if has_azure_env env || has_azure_config config then some "azure"
  else none

/-- Availability of a provider exactly as `detect_llm_provider` tests it. -/
def available (p : Provider) (env config : StrMap) : Bool :=
  match p with
  | .ollama => has_ollama_env env || has_ollama_config config
  | .anthropic => has_anthropic_env env || has_anthropic_config config
  | .gemini => has_gemini_env env || has_gemini_config config
  | .openai => has_openai_env env || has_openai_config config
  | .azure => has_azure_env env || has_azure_config config

/-- Position of a provider in the fixed priority order (lower = preferred). -/
def priority : Provider → Nat
  | .ollama => 0
  | .anthropic => 1
  | .gemini => 2
  | .openai => 3
  | .azure => 4

/-- Availability as the claim words it (spec, not source): a provider counts as
available when any of its recognized keys (API key / model / base URL / target
URL) is non-empty in the environment or in the config mapping. -/
def specAvailable (p : Provider) (env config : StrMap) : Bool :=
  match p with
  | .ollama =>
    truthy (env.lookup "OLLAMA_BASE_URL") || truthy (env.lookup "OLLAMA_MODEL") ||
      truthy (config.lookup "OLLAMA_BASE_URL") || truthy (config.lookup "OLLAMA_MODEL")
  | .anthropic =>
    truthy (env.lookup "ANTHROPIC_API_KEY") || truthy (env.lookup "ANTHROPIC_MODEL") ||
      truthy (config.lookup "ANTHROPIC_API_KEY") || truthy (config.lookup "ANTHROPIC_MODEL")
  | .gemini =>
    truthy (env.lookup "GEMINI_API_KEY") || truthy (env.lookup "GEMINI_MODEL") ||
      truthy (config.lookup "GEMINI_API_KEY") || truthy (config.lookup "GEMINI_MODEL")
  | .openai =>
    truthy (env.lookup "OPENAI_API_KEY") || truthy (env.lookup "OPENAI_MODEL") ||
      truthy (config.lookup "OPENAI_API_KEY") || truthy (config.lookup "OPENAI_MODEL")
  | .azure =>
    truthy (env.lookup "AZURE_OPENAI_API_KEY") ||
      truthy (env.lookup "AZURE_DEPLOYMENT_TARGET_URL") ||
      truthy (config.lookup "AZURE_OPENAI_API_KEY") ||
      truthy (config.lookup "AZURE_DEPLOYMENT_TARGET_URL")

/-- `query.process_query`'s result record (`datatalk/query.py` lines 43-53):
`{sql, dataframe, error}` with `None` modelled as `none`.  Generic in the query
and result types. -/
structure QueryResult (Q R : Type) where
  sql : Option Q
  dataframe : Option R
  error : Option String

/-- `query.process_query` (`datatalk/query.py` lines 13-53).  The two
fallible steps — `provider.to_sql` and `database.execute_query` — are passed
in as explicit outcomes: `translate` is the result of the LLM call and
`execute` maps a generated query to its execution result; a Python exception
is an `Except.error` carrying `str(e)`.  The `try/except` over both steps
becomes the match: any failure yields `{None, None, str(e)}`. -/
def process_query {Q R : Type} (translate : Except String Q)
    (execute : Q → Except String R) : QueryResult Q R :=
  match translate with
  | .error e => { sql := none, dataframe := none, error := some e }
  | .ok sql =>
    match execute sql with
    | .error e => { sql := none, dataframe := none, error := some e }
    | .ok df => { sql := some sql, dataframe := some df, error := none }

/-- `GeoLLMProvider._parse_json_response`, fence-stripping step
(`geodatatalk/geollm.py` lines 168-175): drop a leading ````` ```json `````
(7 chars) or bare ````` ``` `````, and a trailing ````` ``` `````. -/
def removeJsonLeadingFence (c : List Char) : List Char :=
  if startswith ("```json".toList) c then c.drop 7
  else if startswith ("```".toList) c then c.drop 3
  else c

/-- The full fence-stripping pipeline of `_parse_json_response`:
strip, remove fences, strip again. -/
def strip_json_fences (content : List Char) : List Char :=
  strip (removeTrailingFence (removeJsonLeadingFence (strip content)))

/-- `GeoLLMProvider._parse_json_response` (`geodatatalk/geollm.py`
lines 165-180).  `loads` stands for the external `json.loads`, returning the
parsed value or the `JSONDecodeError` text `e`; a parse failure becomes
`ValueError(f"Invalid JSON response from LLM: {e}")`, never a fallback value. -/
def parse_json_response {J : Type} (loads : List Char → Except String J)
    (content : List Char) : Except (List Char) J :=
  match loads (strip_json_fences content) with
  | .ok v => .ok v
  | .error e => .error ("Invalid JSON response from LLM: ".toList ++ e.toList)

/-- Tokens of the three regular expressions used by `_clean_litellm_error`:
a case-insensitive literal character, `\w+`, or `\s*`. -/
inductive RTok where
  | lit (c : Char)
  | wplus
  | sstar
  deriving DecidableEq, Repr

/-- Python regex `\w` (ASCII range). -/
def isWordChar (c : Char) : Bool := c.isAlpha || c.isDigit || c = '_'

/-- A sequence of case-insensitive literal tokens. -/
def lits (t : String) : List RTok := t.toList.map RTok.lit

/-- `[m, m-1, ..., lo]`: the candidate repetition counts a backtracking regex
engine tries for a greedy quantifier, longest first. -/
def descRange (m lo : Nat) : List Nat :=
  (List.range (m + 1 - lo)).map (fun i => m - i)

/-- Backtracking regex matcher: `matchEndF fuel ps s` returns the remainder of
`s` after a match of `ps` at its start (greedy quantifiers, longest-first
backtracking, case-insensitive literals — the semantics of `re.sub` with
`re.IGNORECASE` for these patterns).  `fuel` bounds the pattern length;
`ps.length + 1` always suffices. -/
def matchEndF : Nat → List RTok → List Char → Option (List Char)
  | 0, _, _ => none
  | _ + 1, [], s => some s
  | f + 1, .lit c :: ps, s =>
    match s with
    | [] => none
    | x :: rest => if x.toLower = c.toLower then matchEndF f ps rest else none
  | f + 1, .wplus :: ps, s =>
    (descRange ((s.takeWhile isWordChar).length) 1).findSome?
      (fun k => matchEndF f ps (s.drop k))
  | f + 1, .sstar :: ps, s =>
    (descRange ((s.takeWhile pyIsSpace).length) 0).findSome?
      (fun k => matchEndF f ps (s.drop k))

/-- Match a pattern at the start of a string, returning the unmatched
remainder. -/
def matchEnd (ps : List RTok) (s : List Char) : Option (List Char) :=
  matchEndF (ps.length + 1) ps s

/-- One left-to-right pass of `re.sub(pattern, "", s)`: at each position, if
the pattern matches, delete the (non-empty) match and continue after it,
otherwise keep the character.  `fuel = s.length + 1` always suffices since
every step shortens the remaining input. -/
def reSubF : Nat → List RTok → List Char → List Char
  | 0, _, s => s
  | _ + 1, _, [] => []
  | f + 1, ps, c :: rest =>
    match matchEnd ps (c :: rest) with
    | some rem =>
      if rem.length < (c :: rest).length then reSubF f ps rem
      else c :: reSubF f ps rest
    | none => c :: reSubF f ps rest

/-- `re.sub(pattern, "", s, flags=re.IGNORECASE)` for the patterns in use. -/
def reSub (ps : List RTok) (s : List Char) : List Char :=
  reSubF (s.length + 1) ps s

/-- Regex `litellm\.\w+Error:\s*` (`geollm.py` line 188). -/
def litellmErrPat : List RTok := lits "litellm." ++ [.wplus] ++ lits "Error:" ++ [.sstar]

/-- Regex `\w+Error:\s*` (`geollm.py` line 189). -/
def anyErrPat : List RTok := .wplus :: (lits "Error:" ++ [.sstar])

/-- Regex `\w+Exception\s*-\s*` (`geollm.py` line 190). -/
def anyExcPat : List RTok := .wplus :: (lits "Exception" ++ [.sstar, .lit '-', .sstar])

/-- `GeoLLMProvider._clean_litellm_error` (`geodatatalk/geollm.py`
lines 182-201): strip the three vendor prefix patterns everywhere in the
message, strip whitespace, and fall back to the original message when the
result is empty. -/
def clean_litellm_error (error_message : List Char) : List Char :=
  let cleaned := reSub litellmErrPat error_message
  let cleaned := reSub anyErrPat cleaned
  let cleaned := reSub anyExcPat cleaned
  let cleaned := strip cleaned
  if cleaned = [] then error_message else cleaned

end DataTalk

namespace DataTalk

/-- C2: for each of the inputs `"```sql\nSELECT 1```"`, `"```\nSELECT 1```"`
and `"SELECT 1"`, the sanitize step `_clean_sql` returns exactly `"SELECT 1"`. -/
theorem clean_sql_spec_examples :
    clean_sql ("```sql\nSELECT 1```".toList) = "SELECT 1".toList ∧
    clean_sql ("```\nSELECT 1```".toList) = "SELECT 1".toList ∧
    clean_sql ("SELECT 1".toList) = "SELECT 1".toList := by
  decide

/-- C3 counterexample: the claim that `_clean_sql`'s output never starts or
ends with ````` ``` ````` fails on the raw response of nine consecutive
backticks, whose cleaned form is exactly ````` ``` `````. -/
theorem clean_sql_fence_counterexample :
    clean_sql ("`````````".toList) = "```".toList ∧
    startswith ("```".toList) (clean_sql ("`````````".toList)) = true ∧
    endswith ("```".toList) (clean_sql ("`````````".toList)) = true := by
  decide

/-- C7: `_clean_litellm_error` maps the vendor error text
`"litellm.AuthenticationError: AuthenticationError: OpenAIException - Invalid key"`
to exactly `"Invalid key"`. -/
theorem clean_litellm_error_auth_example :
    clean_litellm_error
      ("litellm.AuthenticationError: AuthenticationError: OpenAIException - Invalid key".toList) =
      "Invalid key".toList := by
  decide

/-- C4 counterexample: the claim that `parse_target_url` succeeds on every
string containing `"/deployments/"` and `"api-version="` fails: this URL
contains both required substrings yet `parse_target_url` raises, because the
code in fact requires the longer segment `"/openai/deployments/"`. -/
theorem parse_target_url_claim_counterexample :
    containsSub ("/deployments/".toList)
      ("https://x.com/deployments/gpt-4o/chat?api-version=1".toList) = true ∧
    containsSub ("api-version=".toList)
      ("https://x.com/deployments/gpt-4o/chat?api-version=1".toList) = true ∧
    exceptOk (parse_target_url
      ("https://x.com/deployments/gpt-4o/chat?api-version=1".toList)) = false := by
  decide

/-- C4 amended: `parse_target_url` raises exactly when the URL lacks the
`"/openai/deployments/"` path segment or lacks the `"api-version="` query
parameter, and performs no other validation: every string containing both
substrings yields a triple without raising. -/
theorem parse_target_url_amended :
    ∀ url : List Char,
      exceptOk (parse_target_url url) = true ↔
        (containsSub ("/openai/deployments/".toList) url = true ∧
          containsSub ("api-version=".toList) url = true) := by
  intro url
  by_cases hd : containsSub ("/openai/deployments/".toList) url
  · by_cases hv : containsSub ("api-version=".toList) url
    · simp only [String.toList] at hd hv
      simp [parse_target_url, hd, hv, exceptOk]
    · simp only [String.toList] at hd hv
      simp [parse_target_url, hd, hv, exceptOk]
  · simp only [String.toList] at hd
    simp [parse_target_url, hd, exceptOk]

/-- C5: `parse_target_url` decomposes the spec's example Azure URL into
endpoint `"https://x.com/"`, deployment `"gpt-4o"` and version `"2024-01-01"`,
and raises an error on every URL missing the substring `"api-version="`. -/
theorem parse_target_url_example :
    parse_target_url
        ("https://x.com/openai/deployments/gpt-4o/chat/completions?api-version=2024-01-01".toList) =
      .ok ("https://x.com/".toList, "gpt-4o".toList, "2024-01-01".toList) ∧
    ∀ url : List Char, containsSub ("api-version=".toList) url = false →
      exceptOk (parse_target_url url) = false := by
  refine ⟨rfl, ?_⟩
  intro url h
  by_cases hd : containsSub ("/openai/deployments/".toList) url
  · simp only [String.toList] at hd h
    simp [parse_target_url, hd, h, exceptOk]
  · simp only [String.toList] at hd
    simp [parse_target_url, hd, exceptOk]

/-- C5 witness: the missing-version half of `parse_target_url_example`
instantiated at a concrete URL without `"api-version="`. -/
theorem parse_target_url_example_witness :
    exceptOk (parse_target_url
      ("https://x.com/openai/deployments/gpt-4o/chat/completions".toList)) = false :=
  parse_target_url_example.2
    ("https://x.com/openai/deployments/gpt-4o/chat/completions".toList) (by decide)

/-- C1 counterexample: under the claim's notion of availability (any
recognized key non-empty in environment or config), anthropic is available
when only the environment variable `ANTHROPIC_MODEL` is set; yet
`detect_llm_provider` falls through to the interactive menu (`none`) because
the environment check only looks at `ANTHROPIC_API_KEY`. -/
theorem detect_provider_claim_counterexample :
    specAvailable .anthropic [("ANTHROPIC_MODEL", "claude-3-5-sonnet-20241022")] [] = true ∧
    detect_llm_provider [("ANTHROPIC_MODEL", "claude-3-5-sonnet-20241022")] [] = none := by
  decide

/-- C1 amended: with availability as the code tests it (environment: base URL
or model for ollama, API key for anthropic/gemini/openai, API key or target
URL for azure; config mapping: API key or model / base URL / target URL),
whenever at least one provider is available `detect_llm_provider` returns the
single highest-priority available provider under
ollama > anthropic > gemini > openai > azure and never reaches the
interactive menu. -/
theorem detect_provider_priority_amended :
    ∀ (env config : StrMap) (p : Provider), available p env config = true →
      ∃ q : Provider, detect_llm_provider env config = some q.idStr ∧
        available q env config = true ∧
        ∀ r : Provider, available r env config = true → priority q ≤ priority r := by
  intro env config p hp
  by_cases h1 : (has_ollama_env env || has_ollama_config config) = true
  · refine ⟨.ollama, ?_, ?_, ?_⟩
    · simp [detect_llm_provider, h1, Provider.idStr]
    · simp [available, h1]
    · intro r hr; cases r <;> simp [priority]
  · by_cases h2 : (has_anthropic_env env || has_anthropic_config config) = true
    · refine ⟨.anthropic, ?_, ?_, ?_⟩
      · simp [detect_llm_provider, h1, h2, Provider.idStr]
      · simp [available, h2]
      · intro r hr; cases r <;> simp_all [available, priority]
    · by_cases h3 : (has_gemini_env env || has_gemini_config config) = true
      · refine ⟨.gemini, ?_, ?_, ?_⟩
        · simp [detect_llm_provider, h1, h2, h3, Provider.idStr]
        · simp [available, h3]
        · intro r hr; cases r <;> simp_all [available, priority]
      · by_cases h4 : (has_openai_env env || has_openai_config config) = true
        · refine ⟨.openai, ?_, ?_, ?_⟩
          · simp [detect_llm_provider, h1, h2, h3, h4, Provider.idStr]
          · simp [available, h4]
          · intro r hr; cases r <;> simp_all [available, priority]
        · by_cases h5 : (has_azure_env env || has_azure_config config) = true
          · refine ⟨.azure, ?_, ?_, ?_⟩
            · simp [detect_llm_provider, h1, h2, h3, h4, h5, Provider.idStr]
            · simp [available, h5]
            · intro r hr; cases r <;> simp_all [available, priority]
          · exact absurd hp (by cases p <;> simp_all [available])

/-- C1 amended witness: with only `OLLAMA_MODEL` set in the environment,
detection picks ollama without interaction. -/
theorem detect_provider_priority_amended_witness :
    ∃ q : Provider, detect_llm_provider [("OLLAMA_MODEL", "llama3.1")] [] = some q.idStr ∧
      available q [("OLLAMA_MODEL", "llama3.1")] [] = true ∧
      ∀ r : Provider, available r [("OLLAMA_MODEL", "llama3.1")] [] = true →
        priority q ≤ priority r :=
  detect_provider_priority_amended [("OLLAMA_MODEL", "llama3.1")] [] .ollama (by decide)

/-- C10 counterexample: the claim that every key name outside the descriptor
table reaching the prompt path exits fatally fails on `"FOO_API_KEY"`: it is
not in the `descriptions` table, yet because it contains the substring
`"API_KEY"` the code prompts, stores the answer and returns it instead of
exiting. -/
theorem get_env_var_unknown_key_counterexample :
    descriptions.lookup "FOO_API_KEY" = none ∧
    get_env_var "FOO_API_KEY" [] [] "secret" =
      .value "secret" [("FOO_API_KEY", "secret")] true := by
  decide

/-- C10 amended: `get_env_var` reaching the prompt path exits immediately with
status 1 exactly for names outside the prompt branch chain: names that do not
contain the substring `"API_KEY"` and are none of the six specially-prompted
names (any name containing `"API_KEY"` is prompted even when absent from the
descriptor table). -/
theorem get_env_var_unknown_key_amended :
    ∀ (name : String) (env config : StrMap) (ans : String),
      ((env.lookup name).getD "") = "" →
      config.lookup name = none →
      containsSub ("API_KEY".toList) name.toList = false →
      name ≠ "AZURE_DEPLOYMENT_TARGET_URL" →
      name ≠ "OPENAI_MODEL" →
      name ≠ "ANTHROPIC_MODEL" →
      name ≠ "OLLAMA_BASE_URL" →
      name ≠ "OLLAMA_MODEL" →
      name ≠ "GEMINI_MODEL" →
      get_env_var name env config ans = .exitCode 1 := by
  intro name env config ans h1 h2 h3 h4 h5 h6 h7 h8 h9
  simp at h3
  simp [get_env_var, h1, h2, h3, h4, h5, h6, h7, h8, h9]

/-- C10 amended witness: the unrecognized key `"SOME_SETTING"` with empty
environment and config exits with status 1. -/
theorem get_env_var_unknown_key_amended_witness :
    get_env_var "SOME_SETTING" [] [] "x" = .exitCode 1 :=
  get_env_var_unknown_key_amended "SOME_SETTING" [] [] "x" (by decide) (by decide)
    (by decide) (by decide) (by decide) (by decide) (by decide) (by decide) (by decide)

/-- Inversion of a prompted `get_env_var` call: a result with
`prompted = true` means the environment value was falsy, the key was absent
from the config, the returned value is the prompt answer, and the returned
config mapping is the old one extended with that answer. -/
theorem get_env_var_prompt_inversion
    (name : String) (env config : StrMap) (ans v : String) (config2 : StrMap)
    (h : get_env_var name env config ans = .value v config2 true) :
    ((env.lookup name).getD "") = "" ∧ config.lookup name = none ∧
      v = ans ∧ config2 = (name, ans) :: config := by
  unfold get_env_var at h
  by_cases h1 : ((env.lookup name).getD "") ≠ ""
  · rw [if_pos h1] at h
    exact absurd h (by simp)
  · rw [if_neg h1] at h
    cases hc : config.lookup name with
    | some w =>
      simp only [hc] at h
      exact absurd h (by simp)
    | none =>
      simp only [hc] at h
      by_cases ha : ans = ""
      · simp [ha] at h
      · refine ⟨not_not.mp h1, rfl, ?_⟩
        simp only [ha, ite_false] at h
        repeat' split at h
        all_goals first
          | exact EnvVarOutcome.noConfusion h
          | (injection h with e1 e2 e3; exact ⟨e1.symm, e2.symm⟩)

/-- C6: a `get_env_var` call that obtained its value by prompting stores the
answer into the in-memory configuration mapping, so a second call in the same
run with the same key and that updated mapping returns the same value from
the mapping without prompting. -/
theorem get_env_var_caches_prompt :
    ∀ (name : String) (env config : StrMap) (ans ans2 v : String) (config2 : StrMap),
      get_env_var name env config ans = .value v config2 true →
      get_env_var name env config2 ans2 = .value v config2 false := by
  intro name env config ans ans2 v config2 h
  obtain ⟨henv, hc, hv, hcfg⟩ := get_env_var_prompt_inversion name env config ans v config2 h
  subst hv
  subst hcfg
  unfold get_env_var
  rw [if_neg (by simp [henv])]
  simp [List.lookup]

/-- C6 witness: after the first call prompted `"gpt-4o"` for `OPENAI_MODEL`
and cached it, the second call returns it from the mapping without
prompting. -/
theorem get_env_var_caches_prompt_witness :
    get_env_var "OPENAI_MODEL" [] [("OPENAI_MODEL", "gpt-4o")] "other" =
      .value "gpt-4o" [("OPENAI_MODEL", "gpt-4o")] false :=
  get_env_var_caches_prompt "OPENAI_MODEL" [] [] "gpt-4o" "other" "gpt-4o"
    [("OPENAI_MODEL", "gpt-4o")] (by decide)

/-- C8: `process_query` is total over the outcomes of translation and
execution: the error field is `none` exactly when both steps succeeded; any
failure nulls both the query and the result fields and carries the failure
message — in particular a successful translation followed by a failed
execution still reports `sql = none`. -/
theorem process_query_outcomes :
    ∀ (Q R : Type) (translate : Except String Q) (execute : Q → Except String R),
      ((process_query translate execute).error = none ↔
        ∃ q d, translate = .ok q ∧ execute q = .ok d) ∧
      (∀ e, (process_query translate execute).error = some e →
        (process_query translate execute).sql = none ∧
        (process_query translate execute).dataframe = none) ∧
      (∀ q e, translate = .ok q → execute q = .error e →
        (process_query translate execute).sql = none ∧
        (process_query translate execute).dataframe = none ∧
        (process_query translate execute).error = some e) := by
  intro Q R translate execute
  refine ⟨?_, ?_, ?_⟩
  · cases translate with
    | error e => simp [process_query]
    | ok q =>
      cases hex : execute q with
      | error e => simp [process_query, hex]
      | ok d => simp [process_query, hex]
  · intro e he
    cases translate with
    | error e2 => simp [process_query]
    | ok q =>
      cases hex : execute q with
      | error e2 => simp [process_query, hex]
      | ok d => simp [process_query, hex] at he
  · intro q e ht hex
    subst ht
    simp [process_query, hex]

/-- C8 witness: a successful translation (`"SELECT 1"`) followed by a failed
execution (`"boom"`) yields null query and result fields and the error. -/
theorem process_query_outcomes_witness :
    (process_query (.ok "SELECT 1") (fun _ : String => (.error "boom" : Except String Nat))).sql
        = none ∧
    (process_query (.ok "SELECT 1")
        (fun _ : String => (.error "boom" : Except String Nat))).dataframe = none ∧
    (process_query (.ok "SELECT 1")
        (fun _ : String => (.error "boom" : Except String Nat))).error = some "boom" :=
  (process_query_outcomes String Nat (.ok "SELECT 1")
    (fun _ => .error "boom")).2.2 "SELECT 1" "boom" rfl rfl

/-- C9: the geospatial `_parse_json_response` raises a translation error —
never a fallback value — whenever the fence-stripped response fails to parse
as JSON, and returns exactly the parsed value when it does parse. -/
theorem parse_json_response_no_fallback :
    ∀ (J : Type) (loads : List Char → Except String J) (content : List Char),
      (∀ e, loads (strip_json_fences content) = .error e →
        parse_json_response loads content =
          .error ("Invalid JSON response from LLM: ".toList ++ e.toList)) ∧
      (∀ v, loads (strip_json_fences content) = .ok v →
        parse_json_response loads content = .ok v) := by
  intro J loads content
  constructor
  · intro e he
    simp [parse_json_response, he]
  · intro v hv
    simp [parse_json_response, hv]

/-- C9 witness: a parser that rejects everything makes `_parse_json_response`
raise the translation error on a concrete non-JSON response. -/
theorem parse_json_response_no_fallback_witness :
    parse_json_response (fun _ => (.error "Expecting value" : Except String Nat))
        ("not json".toList) =
      .error ("Invalid JSON response from LLM: Expecting value".toList) := by
  have h := (parse_json_response_no_fallback Nat
    (fun _ => .error "Expecting value") ("not json".toList)).1 "Expecting value" rfl
  simpa using h

/-- Characters of `lstrip t` come from `t`. -/
theorem mem_lstrip {c : Char} {t : List Char} (h : c ∈ lstrip t) : c ∈ t :=
  (List.dropWhile_sublist pyIsSpace).subset h

/-- Characters of `rstrip t` come from `t`. -/
theorem mem_rstrip {c : Char} {t : List Char} (h : c ∈ rstrip t) : c ∈ t := by
  unfold rstrip at h
  rw [List.mem_reverse] at h
  exact List.mem_reverse.mp ((List.dropWhile_sublist pyIsSpace).subset h)

/-- Characters of `strip t` come from `t`. -/
theorem mem_strip {c : Char} {t : List Char} (h : c ∈ strip t) : c ∈ t :=
  mem_lstrip (mem_rstrip h)

/-- `lstrip` keeps a non-whitespace head character. -/
theorem lstrip_cons_of_nonspace {c : Char} {t : List Char} (h : pyIsSpace c = false) :
    lstrip (c :: t) = c :: t := by
  simp [lstrip, List.dropWhile_cons, h]

/-- `rstrip` keeps a non-whitespace last character. -/
theorem rstrip_append_of_nonspace {c : Char} {x : List Char} (h : pyIsSpace c = false) :
    rstrip (x ++ [c]) = x ++ [c] := by
  unfold rstrip
  rw [List.reverse_append]
  simp [List.dropWhile_cons, h]

/-- `rstrip` over an append acts on the right part unless it vanishes. -/
theorem rstrip_append (x y : List Char) :
    rstrip (x ++ y) = if rstrip y = [] then rstrip x else x ++ rstrip y := by
  by_cases hy : y.reverse.dropWhile pyIsSpace = []
  · have h1 : rstrip y = [] := by simp [rstrip, hy]
    rw [if_pos h1]
    unfold rstrip
    rw [List.reverse_append, List.dropWhile_append, if_pos (by simp [hy])]
  · have h1 : rstrip y ≠ [] := by simp [rstrip, hy]
    rw [if_neg h1]
    unfold rstrip
    rw [List.reverse_append, List.dropWhile_append, if_neg (by simp [hy])]
    rw [List.reverse_append, List.reverse_reverse]

/-- A pattern containing a backtick is no prefix of a backtick-free string. -/
theorem startswith_eq_false_of_no_backtick (pre : List Char) {t : List Char}
    (hp : ('`' : Char) ∈ pre) (h : ∀ c ∈ t, c ≠ '`') :
    startswith pre t = false := by
  by_contra hh
  rw [Bool.not_eq_false, startswith, List.isPrefixOf_iff_prefix] at hh
  exact h '`' (hh.sublist.subset hp) rfl

/-- A pattern containing a backtick is no suffix of a backtick-free string. -/
theorem endswith_eq_false_of_no_backtick (suf : List Char) {t : List Char}
    (hp : ('`' : Char) ∈ suf) (h : ∀ c ∈ t, c ≠ '`') :
    endswith suf t = false := by
  by_contra hh
  rw [Bool.not_eq_false, endswith, List.isSuffixOf_iff_suffix] at hh
  exact h '`' (hh.sublist.subset hp) rfl

/-- `removeLeadingFence` is the identity on backtick-free strings. -/
theorem removeLeadingFence_no_backtick {t : List Char} (h : ∀ c ∈ t, c ≠ '`') :
    removeLeadingFence t = t := by
  have h1 : startswith ("```sql".toList) t = false :=
    startswith_eq_false_of_no_backtick ("```sql".toList) (by decide) h
  have h2 : startswith ("```".toList) t = false :=
    startswith_eq_false_of_no_backtick ("```".toList) (by decide) h
  unfold removeLeadingFence
  rw [if_neg (by rw [h1]; simp), if_neg (by rw [h2]; simp)]

/-- `removeTrailingFence` is the identity on backtick-free strings. -/
theorem removeTrailingFence_no_backtick {t : List Char} (h : ∀ c ∈ t, c ≠ '`') :
    removeTrailingFence t = t := by
  have h1 : endswith ("```".toList) t = false :=
    endswith_eq_false_of_no_backtick ("```".toList) (by decide) h
  unfold removeTrailingFence
  rw [if_neg (by rw [h1]; simp)]

/-- `removeTrailingFence` drops exactly a closing fence. -/
theorem removeTrailingFence_append_fence (x : List Char) :
    removeTrailingFence (x ++ "```".toList) = x := by
  have hsuf : endswith ("```".toList) (x ++ "```".toList) = true := by
    rw [endswith, List.isSuffixOf_iff_suffix]
    exact List.suffix_append x _
  unfold removeTrailingFence
  rw [if_pos hsuf]
  have hlen : (x ++ "```".toList).length - 3 = x.length := by
    simp
  rw [hlen]
  exact List.take_left x _

/-- `strip` preserves backtick-freeness. -/
theorem noBacktick_strip {t : List Char} (h : ∀ c ∈ t, c ≠ '`') :
    ∀ c ∈ strip t, c ≠ '`' :=
  fun c hc => h c (mem_strip hc)

/-- C3 amended: the claim holds for the standard response shapes the sanitize
contract describes — a backtick-free body, optionally wrapped in a
`"```sql\n"` or `"```\n"` opening fence with or without the closing
`"```"` — the cleaned result then neither starts nor ends with ````` ``` `````;
for arbitrary raw responses the claim fails (nine consecutive backticks clean
to ````` ``` `````). -/
theorem clean_sql_fenced_amended :
    ∀ (b s : List Char), (∀ c ∈ b, c ≠ '`') →
      (s = b ∨ s = "```sql\n".toList ++ b ∨ s = "```sql\n".toList ++ b ++ "```".toList ∨
        s = "```\n".toList ++ b ∨ s = "```\n".toList ++ b ++ "```".toList) →
      startswith ("```".toList) (clean_sql s) = false ∧
      endswith ("```".toList) (clean_sql s) = false := by
  intro b s hb hs
  have main : ∀ c ∈ clean_sql s, c ≠ '`' := by
    rcases hs with hs | hs | hs | hs | hs
    · -- bare body
      subst hs
      have h1 := noBacktick_strip hb
      unfold clean_sql
      rw [removeLeadingFence_no_backtick h1, removeTrailingFence_no_backtick h1]
      exact fun c hc => h1 c (mem_strip hc)
    · -- "```sql\n" ++ b, truncated (no closing fence)
      subst hs
      have hb2 : ∀ c ∈ '\n' :: rstrip b, c ≠ '`' := by
        intro c hc
        rcases List.mem_cons.mp hc with hc | hc
        · subst hc; decide
        · exact hb c (mem_rstrip hc)
      have hl : lstrip ("```sql\n".toList ++ b) = "```sql\n".toList ++ b :=
        lstrip_cons_of_nonspace (by decide)
      have hstrip : strip ("```sql\n".toList ++ b) =
          if rstrip b = [] then rstrip ("```sql\n".toList)
          else "```sql\n".toList ++ rstrip b := by
        unfold strip
        rw [hl, rstrip_append]
      by_cases hrb : rstrip b = []
      · rw [if_pos hrb] at hstrip
        have hstrip2 : strip ("```sql\n".toList ++ b) = "```sql".toList := by
          rw [hstrip]; decide
        unfold clean_sql
        rw [hstrip2]
        intro c hc
        have : c ∈ ([] : List Char) := by
          have he : strip (removeTrailingFence (removeLeadingFence ("```sql".toList))) =
              ([] : List Char) := by decide
          rw [he] at hc
          exact hc
        simp at this
      · rw [if_neg hrb] at hstrip
        have hcons : "```sql\n".toList ++ rstrip b =
            '`' :: '`' :: '`' :: 's' :: 'q' :: 'l' :: '\n' :: rstrip b := rfl
        have hpre : startswith ("```sql".toList)
            ('`' :: '`' :: '`' :: 's' :: 'q' :: 'l' :: '\n' :: rstrip b) = true := rfl
        have hlead : removeLeadingFence ("```sql\n".toList ++ rstrip b) =
            '\n' :: rstrip b := by
          unfold removeLeadingFence
          rw [hcons, if_pos hpre]
          rfl
        have htrail : removeTrailingFence ('\n' :: rstrip b) = '\n' :: rstrip b :=
          removeTrailingFence_no_backtick hb2
        unfold clean_sql
        rw [hstrip, hlead, htrail]
        exact fun c hc => hb2 c (mem_strip hc)
    · -- "```sql\n" ++ b ++ "```", fully fenced
      subst hs
      have hb2 : ∀ c ∈ '\n' :: b, c ≠ '`' := by
        intro c hc
        rcases List.mem_cons.mp hc with hc | hc
        · subst hc; decide
        · exact hb c hc
      have hl : lstrip ("```sql\n".toList ++ b ++ "```".toList) =
          "```sql\n".toList ++ b ++ "```".toList :=
        lstrip_cons_of_nonspace (by decide)
      have hr : rstrip ("```sql\n".toList ++ b ++ "```".toList) =
          "```sql\n".toList ++ b ++ "```".toList := by
        have e : "```sql\n".toList ++ b ++ "```".toList =
            ("```sql\n".toList ++ b ++ ['`', '`']) ++ ['`'] := by
          rw [List.append_assoc ("```sql\n".toList ++ b) ['`', '`'] ['`']]
          rfl
        rw [e]
        exact rstrip_append_of_nonspace (by decide)
      have hstrip : strip ("```sql\n".toList ++ b ++ "```".toList) =
          "```sql\n".toList ++ b ++ "```".toList := by
        unfold strip; rw [hl, hr]
      have hcons : "```sql\n".toList ++ b ++ "```".toList =
          '`' :: '`' :: '`' :: 's' :: 'q' :: 'l' :: '\n' :: (b ++ "```".toList) := rfl
      have hpre : startswith ("```sql".toList)
          ('`' :: '`' :: '`' :: 's' :: 'q' :: 'l' :: '\n' :: (b ++ "```".toList)) = true := rfl
      have hlead : removeLeadingFence ("```sql\n".toList ++ b ++ "```".toList) =
          '\n' :: (b ++ "```".toList) := by
        unfold removeLeadingFence
        rw [hcons, if_pos hpre]
        rfl
      have htrail : removeTrailingFence ('\n' :: (b ++ "```".toList)) = '\n' :: b :=
        removeTrailingFence_append_fence ('\n' :: b)
      unfold clean_sql
      rw [hstrip, hlead, htrail]
      exact fun c hc => hb2 c (mem_strip hc)
    · -- "```\n" ++ b, truncated (no closing fence)
      subst hs
      have hb2 : ∀ c ∈ '\n' :: rstrip b, c ≠ '`' := by
        intro c hc
        rcases List.mem_cons.mp hc with hc | hc
        · subst hc; decide
        · exact hb c (mem_rstrip hc)
      have hl : lstrip ("```\n".toList ++ b) = "```\n".toList ++ b :=
        lstrip_cons_of_nonspace (by decide)
      have hstrip : strip ("```\n".toList ++ b) =
          if rstrip b = [] then rstrip ("```\n".toList)
          else "```\n".toList ++ rstrip b := by
        unfold strip
        rw [hl, rstrip_append]
      by_cases hrb : rstrip b = []
      · rw [if_pos hrb] at hstrip
        have hstrip2 : strip ("```\n".toList ++ b) = "```".toList := by
          rw [hstrip]; decide
        unfold clean_sql
        rw [hstrip2]
        intro c hc
        have : c ∈ ([] : List Char) := by
          have he : strip (removeTrailingFence (removeLeadingFence ("```".toList))) =
              ([] : List Char) := by decide
          rw [he] at hc
          exact hc
        simp at this
      · rw [if_neg hrb] at hstrip
        have hcons : "```\n".toList ++ rstrip b =
            '`' :: '`' :: '`' :: '\n' :: rstrip b := rfl
        have hpre1 : startswith ("```sql".toList)
            ('`' :: '`' :: '`' :: '\n' :: rstrip b) = false := rfl
        have hpre2 : startswith ("```".toList)
            ('`' :: '`' :: '`' :: '\n' :: rstrip b) = true := rfl
        have hlead : removeLeadingFence ("```\n".toList ++ rstrip b) =
            '\n' :: rstrip b := by
          unfold removeLeadingFence
          rw [hcons, if_neg (by rw [hpre1]; simp), if_pos hpre2]
          rfl
        have htrail : removeTrailingFence ('\n' :: rstrip b) = '\n' :: rstrip b :=
          removeTrailingFence_no_backtick hb2
        unfold clean_sql
        rw [hstrip, hlead, htrail]
        exact fun c hc => hb2 c (mem_strip hc)
    · -- "```\n" ++ b ++ "```", fully fenced
      subst hs
      have hb2 : ∀ c ∈ '\n' :: b, c ≠ '`' := by
        intro c hc
        rcases List.mem_cons.mp hc with hc | hc
        · subst hc; decide
        · exact hb c hc
      have hl : lstrip ("```\n".toList ++ b ++ "```".toList) =
          "```\n".toList ++ b ++ "```".toList :=
        lstrip_cons_of_nonspace (by decide)
      have hr : rstrip ("```\n".toList ++ b ++ "```".toList) =
          "```\n".toList ++ b ++ "```".toList := by
        have e : "```\n".toList ++ b ++ "```".toList =
            ("```\n".toList ++ b ++ ['`', '`']) ++ ['`'] := by
          rw [List.append_assoc ("```\n".toList ++ b) ['`', '`'] ['`']]
          rfl
        rw [e]
        exact rstrip_append_of_nonspace (by decide)
      have hstrip : strip ("```\n".toList ++ b ++ "```".toList) =
          "```\n".toList ++ b ++ "```".toList := by
        unfold strip; rw [hl, hr]
      have hcons : "```\n".toList ++ b ++ "```".toList =
          '`' :: '`' :: '`' :: '\n' :: (b ++ "```".toList) := rfl
      have hpre1 : startswith ("```sql".toList)
          ('`' :: '`' :: '`' :: '\n' :: (b ++ "```".toList)) = false := rfl
      have hpre2 : startswith ("```".toList)
          ('`' :: '`' :: '`' :: '\n' :: (b ++ "```".toList)) = true := rfl
      have hlead : removeLeadingFence ("```\n".toList ++ b ++ "```".toList) =
          '\n' :: (b ++ "```".toList) := by
        unfold removeLeadingFence
        rw [hcons, if_neg (by rw [hpre1]; simp), if_pos hpre2]
        rfl
      have htrail : removeTrailingFence ('\n' :: (b ++ "```".toList)) = '\n' :: b :=
        removeTrailingFence_append_fence ('\n' :: b)
      unfold clean_sql
      rw [hstrip, hlead, htrail]
      exact fun c hc => hb2 c (mem_strip hc)
  exact ⟨startswith_eq_false_of_no_backtick ("```".toList) (by decide) main,
    endswith_eq_false_of_no_backtick ("```".toList) (by decide) main⟩

/-- C3 amended witness: the fully fenced response `"```sql\nSELECT 1```"`
cleans to a string with no leading or trailing fence. -/
theorem clean_sql_fenced_amended_witness :
    startswith ("```".toList) (clean_sql ("```sql\nSELECT 1```".toList)) = false ∧
    endswith ("```".toList) (clean_sql ("```sql\nSELECT 1```".toList)) = false :=
  clean_sql_fenced_amended ("SELECT 1".toList) ("```sql\nSELECT 1```".toList)
    (by decide) (Or.inr (Or.inr (Or.inl (by decide))))

end DataTalk
